import Mathlib

/-!
Shallow embedding of the A/B test evaluation core (metrics, validation
checks, statistical inference) and proofs about it.

Conventions used throughout:
- Exact rational arithmetic (ℚ) models the metric and validation layer,
  real arithmetic (ℝ) models the inference layer, whose source uses
  square roots and the normal distribution.
- The normal CDF and its inverse (scipy stats.norm.cdf / ppf) are
  abstract parameters, written Phi and ppf.
- A Python division whose divisor is exactly zero raises
  ZeroDivisionError; functions that can hit one return Option and yield
  none there.  A numpy scalar division 0/0 instead yields NaN, which
  propagates; a value that may be NaN is an Option ℝ whose none case is
  the NaN.
-/

namespace AB

/-- One experiment unit (a row of the experiment table), as consumed by
MetricComputer, which assumes the named columns exist. -/
structure Row where
  user_id : String
  variant : String
  eligible : Bool
  clicked : Bool
  converted : Bool
  device_category : String
  country : String

/-- Source: the MetricReport dataclass of src/metrics/compute.py, with
rates and lifts as exact rationals. -/
structure MetricReport where
  metric_name : String
  control_n : ℕ
  control_successes : ℕ
  control_rate : ℚ
  treatment_n : ℕ
  treatment_successes : ℕ
  treatment_rate : ℚ
  absolute_lift : ℚ
  relative_lift_pct : ℚ

/-- Source: MetricComputer._compute_binary_metric.  Partitions the rows
by variant, counts sizes and successes, computes guarded rates and the
lifts.  The guards mirror the conditional expressions of the source
(rate = 0 when the group is empty, relative lift = 0 when the control
rate is not positive). -/
def compute_binary_metric (metric_name : String) (df : List Row)
    (outcome : Row → Bool) : MetricReport :=
  let control := df.filter (fun r => r.variant == "control")
  let treatment := df.filter (fun r => r.variant == "treatment")
  let control_n := control.length
  let control_successes := (control.filter outcome).length
  let control_rate : ℚ :=
    if 0 < control_n then (control_successes : ℚ) / (control_n : ℚ) else 0
  let treatment_n := treatment.length
  let treatment_successes := (treatment.filter outcome).length
  let treatment_rate : ℚ :=
    if 0 < treatment_n then (treatment_successes : ℚ) / (treatment_n : ℚ) else 0
  let absolute_lift := treatment_rate - control_rate
  let relative_lift_pct : ℚ :=
    if 0 < control_rate then absolute_lift / control_rate * 100 else 0
  { metric_name := metric_name
    control_n := control_n
    control_successes := control_successes
    control_rate := control_rate
    treatment_n := treatment_n
    treatment_successes := treatment_successes
    treatment_rate := treatment_rate
    absolute_lift := absolute_lift
    relative_lift_pct := relative_lift_pct }

/-- A value of one dataframe cell, as the validation checks distinguish
them: a string, a boolean, or a missing value (NaN or None). -/
inductive CellVal where
  | str : String → CellVal
  | boolean : Bool → CellVal
  | null : CellVal
deriving DecidableEq

/-- A pandas DataFrame as the validator sees it: a row count and named
columns.  A column access on a missing name raises KeyError in the
source; getCol returns none there. -/
structure DFrame where
  nrows : ℕ
  cols : List (String × List CellVal)

/-- Column lookup, modelling df[name]. -/
def DFrame.getCol (df : DFrame) (name : String) : Option (List CellVal) :=
  (df.cols.find? (fun c => c.1 == name)).map Prod.snd

/-- Whether a column name is present, modelling name in df.columns. -/
def DFrame.hasCol (df : DFrame) (name : String) : Bool :=
  (df.cols.find? (fun c => c.1 == name)).isSome

/-- Source: the ValidationResult dataclass of src/validation/checks.py.
Severity is the literal string of the source, "error" or "warning",
with "error" the dataclass default. -/
structure ValidationResult where
  check_name : String
  passed : Bool
  message : String
  severity : String
deriving DecidableEq

/-- Source: the ValidationReport dataclass, an ordered list of check
results. -/
structure ValidationReport where
  results : List ValidationResult
deriving DecidableEq

/-- Source: ValidationReport.passed, true only if every error-level
check passed (warning-level results are ignored). -/
def ValidationReport.passed (rep : ValidationReport) : Bool :=
  (rep.results.filter (fun r => r.severity == "error")).all (fun r => r.passed)

/-- The required column list of DataValidator._check_schema. -/
def required_cols : List String :=
  ["user_id", "experiment_id", "variant", "assigned_at",
   "first_exposed_at", "eligible", "clicked", "converted",
   "device_category", "country"]

/-- The required non-null column list of DataValidator._check_nulls. -/
def required_non_null : List String :=
  ["user_id", "variant", "eligible", "clicked", "converted"]

/-- Source: DataValidator._check_schema.  Never raises: it only tests
membership in df.columns. -/
def check_schema (df : DFrame) : ValidationResult :=
  let missing := required_cols.filter (fun c => !(df.hasCol c))
  if missing.isEmpty then
    { check_name := "Schema Check", passed := true,
      message := "All required columns present", severity := "error" }
  else
    { check_name := "Schema Check", passed := false,
      message := "Missing required columns", severity := "error" }

/-- Source: DataValidator._check_nulls.  The source subsets
df[required_non_null] first, which raises KeyError (none) when any of
the five columns is absent; otherwise it fails the check exactly when
a null occurs in one of them. -/
def check_nulls (df : DFrame) : Option ValidationResult :=
  if required_non_null.all (fun c => (df.getCol c).isSome) then
    let has_nulls :=
      required_non_null.any (fun c => ((df.getCol c).getD []).contains CellVal.null)
    some (if has_nulls then
      { check_name := "Null Check", passed := false,
        message := "Found nulls in required fields", severity := "error" }
    else
      { check_name := "Null Check", passed := true,
        message := "No nulls in required fields", severity := "error" })
  else none

/-- Source: DataValidator._check_variants.  Accessing the variant
column raises KeyError (none) when it is absent; otherwise the check
fails exactly when some value other than control or treatment occurs
(a null value is also not a valid variant). -/
def check_variants (df : DFrame) : Option ValidationResult :=
  match df.getCol "variant" with
  | none => none
  | some col =>
    let invalid :=
      col.filter (fun v => !(v == CellVal.str "control" || v == CellVal.str "treatment"))
    some (if invalid.isEmpty then
      { check_name := "Variant Integrity", passed := true,
        message := "Valid variants only", severity := "error" }
    else
      { check_name := "Variant Integrity", passed := false,
        message := "Invalid variants found", severity := "error" })

/-- The fixed chi-square critical value of the SRM check. -/
def critical_value : ℚ := 1083 / 100

/-- Source: DataValidator._check_sample_ratio_mismatch.  Expected
counts come from the configured allocation ratio; the chi-square
statistic divides by them, so a zero expected count raises
ZeroDivisionError (none), as does the percentage deviation computed in
the passing branch. -/
def check_sample_ratio_mismatch (ratio : ℚ) (df : DFrame) : Option ValidationResult :=
  match df.getCol "variant" with
  | none => none
  | some col =>
    let total : ℚ := (df.nrows : ℚ)
    let expected_control := total * ratio
    let expected_treatment := total * (1 - ratio)
    if expected_control = 0 ∨ expected_treatment = 0 then none
    else
      let observed_control : ℚ := (col.count (CellVal.str "control") : ℚ)
      let observed_treatment : ℚ := (col.count (CellVal.str "treatment") : ℚ)
      let chi_square :=
        (observed_control - expected_control) ^ 2 / expected_control +
        (observed_treatment - expected_treatment) ^ 2 / expected_treatment
      some (if critical_value < chi_square then
        { check_name := "Sample Ratio Mismatch (SRM)", passed := false,
          message := "SRM detected", severity := "error" }
      else
        { check_name := "Sample Ratio Mismatch (SRM)", passed := true,
          message := "No SRM detected", severity := "error" })

/-- Source: DataValidator._check_contamination.  Groups the user and
variant columns by user (pandas drops null group keys), counts distinct
non-null variants per user, and fails when any user has more than one.
Accessing either column raises KeyError (none) when absent. -/
def check_contamination (df : DFrame) : Option ValidationResult :=
  match df.getCol "user_id", df.getCol "variant" with
  | some uidCol, some varCol =>
    let pairs := (uidCol.zip varCol).filter (fun p => !(p.1 == CellVal.null))
    let users := (pairs.map Prod.fst).dedup
    let contaminated := users.filter (fun u =>
      1 < (((pairs.filter (fun p => p.1 == u)).map Prod.snd).filter
            (fun v => !(v == CellVal.null))).dedup.length)
    some (if contaminated.length = 0 then
      { check_name := "Contamination Check", passed := true,
        message := "No contamination detected", severity := "error" }
    else
      { check_name := "Contamination Check", passed := false,
        message := "Users in multiple variants", severity := "error" })
  | _, _ => none

/-- Source: DataValidator._check_eligibility.  Accessing the eligible
column raises KeyError (none) when absent.  On an empty frame the
percentage is a numpy NaN (0/0), the comparison NaN < 80 is false and
the check passes; otherwise it fails, with warning severity, exactly
when the eligible percentage is below 80. -/
def check_eligibility (df : DFrame) : Option ValidationResult :=
  match df.getCol "eligible" with
  | none => none
  | some col =>
    let eligible_count : ℚ := (col.count (CellVal.boolean true) : ℚ)
    let total := df.nrows
    some (if total ≠ 0 ∧ eligible_count / (total : ℚ) * 100 < 80 then
      { check_name := "Eligibility Check", passed := false,
        message := "Low eligibility rate", severity := "warning" }
    else
      { check_name := "Eligibility Check", passed := true,
        message := "Eligibility rate", severity := "error" })

/-- Source: DataValidator.validate.  Runs the six checks in order; an
exception in any check aborts the run (none), otherwise the six results
are accumulated in order. -/
def validate (ratio : ℚ) (df : DFrame) : Option ValidationReport :=
  let r1 := check_schema df
  match check_nulls df with
  | none => none
  | some r2 =>
    match check_variants df with
    | none => none
    | some r3 =>
      match check_sample_ratio_mismatch ratio df with
      | none => none
      | some r4 =>
        match check_contamination df with
        | none => none
        | some r5 =>
          match check_eligibility df with
          | none => none
          | some r6 => some { results := [r1, r2, r3, r4, r5, r6] }

/-- Source: the InferenceReport dataclass of src/stats/inference.py.
The p-value is an Option ℝ because the source can store a NaN there
(see proportion_z_test); the significance flag is the proposition the
stored boolean stands for, with the Python comparison NaN < alpha
being false. -/
structure InferenceReport where
  metric_name : String
  control_rate : ℝ
  treatment_rate : ℝ
  absolute_lift : ℝ
  relative_lift_pct : ℝ
  ci_lower : ℝ
  ci_upper : ℝ
  p_value : Option ℝ
  statistically_significant : Prop
  confidence_level : ℝ

/-- The Python comparison p_value < alpha, false when p_value is NaN. -/
def pvalue_lt (pv : Option ℝ) (alpha : ℝ) : Prop :=
  match pv with
  | none => False
  | some p => p < alpha

/-- Source: InferenceEngine._proportion_diff_ci.  The divisions by the
group sizes are Python divisions, raising ZeroDivisionError (none) on a
zero size; np.sqrt of a negative argument (possible only when a rate
lies outside the unit interval) is NaN and poisons both bounds (also
none).  Otherwise the bounds are diff minus and plus z times the
unpooled standard error. -/
noncomputable def proportion_diff_ci (ppf : ℝ → ℝ) (alpha : ℝ)
    (p1 : ℝ) (n1 : ℕ) (p2 : ℝ) (n2 : ℕ) : Option (ℝ × ℝ) :=
  if n1 = 0 ∨ n2 = 0 then none
  else if p1 * (1 - p1) / (n1 : ℝ) + p2 * (1 - p2) / (n2 : ℝ) < 0 then none
  else
    let diff := p2 - p1
    let se := Real.sqrt (p1 * (1 - p1) / (n1 : ℝ) + p2 * (1 - p2) / (n2 : ℝ))
    let z := ppf (1 - alpha / 2)
    some (diff - z * se, diff + z * se)

/-- Source: InferenceEngine._proportion_z_test.  The divisions by n1,
n2 and n1+n2 raise ZeroDivisionError (outer none) on a zero divisor.
se_null is a numpy float, so when the pooled proportion is 0 or 1 the
z statistic is a numpy division by zero yielding NaN, the normal CDF of
NaN is NaN and the returned p-value is NaN (some none).  Otherwise the
two-sided p-value 2(1 - Phi(|z|)) is returned (some (some _)). -/
noncomputable def proportion_z_test (Phi : ℝ → ℝ)
    (x1 : ℕ) (n1 : ℕ) (x2 : ℕ) (n2 : ℕ) : Option (Option ℝ) :=
  if n1 = 0 ∨ n2 = 0 then none
  else
    let p1 : ℝ := (x1 : ℝ) / (n1 : ℝ)
    let p2 : ℝ := (x2 : ℝ) / (n2 : ℝ)
    let p_pooled : ℝ := ((x1 : ℝ) + (x2 : ℝ)) / ((n1 : ℝ) + (n2 : ℝ))
    let se_null := Real.sqrt (p_pooled * (1 - p_pooled) * (1 / (n1 : ℝ) + 1 / (n2 : ℝ)))
    if se_null = 0 then some none
    else some (some (2 * (1 - Phi |(p2 - p1) / se_null|)))

/-- Source: InferenceEngine.analyze_metric for an engine constructed
with confidence level cl (alpha = 1 - cl).  Computes the confidence
interval, then the p-value, then the significance flag, and carries the
rates and lifts of the metric report through; an exception in either
helper propagates (none). -/
noncomputable def analyze_metric (Phi ppf : ℝ → ℝ) (cl : ℝ)
    (m : MetricReport) : Option InferenceReport :=
  let alpha := 1 - cl
  match proportion_diff_ci ppf alpha (m.control_rate : ℝ) m.control_n
      (m.treatment_rate : ℝ) m.treatment_n with
  | none => none
  | some ci =>
    match proportion_z_test Phi m.control_successes m.control_n
        m.treatment_successes m.treatment_n with
    | none => none
    | some pv =>
      some { metric_name := m.metric_name
             control_rate := (m.control_rate : ℝ)
             treatment_rate := (m.treatment_rate : ℝ)
             absolute_lift := (m.absolute_lift : ℝ)
             relative_lift_pct := (m.relative_lift_pct : ℝ)
             ci_lower := ci.1
             ci_upper := ci.2
             p_value := pv
             statistically_significant := pvalue_lt pv alpha
             confidence_level := cl }

/-- Source: InferenceEngine.compute_mde.  The source validates nothing:
a zero sample size raises ZeroDivisionError (none); a negative variance
term, possible when the baseline rate is outside the unit interval or
the sample size is negative, makes np.sqrt return NaN (some none);
otherwise the simplified formula value is returned (some (some _)). -/
noncomputable def compute_mde (ppf : ℝ → ℝ) (alpha : ℝ)
    (baseline_rate : ℝ) (n_per_variant : ℤ) (power : ℝ) : Option (Option ℝ) :=
  if n_per_variant = 0 then none
  else if 2 * baseline_rate * (1 - baseline_rate) / (n_per_variant : ℝ) < 0 then some none
  else
    some (some ((ppf (1 - alpha / 2) + ppf power) *
      Real.sqrt (2 * baseline_rate * (1 - baseline_rate) / (n_per_variant : ℝ))))

/-- Modelled from the spec: the chi-square statistic of the SRM check,
chi = (obs_c − N·r)² / (N·r) + (obs_t − N·(1−r))² / (N·(1−r)). -/
def chi_square_stat (ratio : ℚ) (N obs_c obs_t : ℕ) : ℚ :=
  ((obs_c : ℚ) - (N : ℚ) * ratio) ^ 2 / ((N : ℚ) * ratio) +
  ((obs_t : ℚ) - (N : ℚ) * (1 - ratio)) ^ 2 / ((N : ℚ) * (1 - ratio))

/-- Modelled from the spec: the unpooled standard error of the rate
difference, SE = sqrt(p1(1−p1)/n1 + p2(1−p2)/n2). -/
noncomputable def spec_se (p1 : ℝ) (n1 : ℕ) (p2 : ℝ) (n2 : ℕ) : ℝ :=
  Real.sqrt (p1 * (1 - p1) / (n1 : ℝ) + p2 * (1 - p2) / (n2 : ℝ))

/-- Modelled from the spec: the pooled standard error under the null,
SE_null = sqrt(p_pooled(1−p_pooled)(1/n1 + 1/n2)) with
p_pooled = (x1+x2)/(n1+n2). -/
noncomputable def spec_se_null (x1 n1 x2 n2 : ℕ) : ℝ :=
  Real.sqrt (((x1 : ℝ) + (x2 : ℝ)) / ((n1 : ℝ) + (n2 : ℝ)) *
    (1 - ((x1 : ℝ) + (x2 : ℝ)) / ((n1 : ℝ) + (n2 : ℝ))) *
    (1 / (n1 : ℝ) + 1 / (n2 : ℝ)))

/-- Modelled from the spec: the pooled two-sided z-test p-value,
2·(1 − Phi(|(p2 − p1)/SE_null|)) with the rates recomputed from the
success counts. -/
noncomputable def spec_p_value (Phi : ℝ → ℝ) (x1 n1 x2 n2 : ℕ) : ℝ :=
  2 * (1 - Phi |((x2 : ℝ) / (n2 : ℝ) - (x1 : ℝ) / (n1 : ℝ)) / spec_se_null x1 n1 x2 n2|)

/-- A metric report whose control group is empty, for exercising the
zero-size precondition of analyze_metric. -/
def zeroReport : MetricReport :=
  { metric_name := "CVR", control_n := 0, control_successes := 0, control_rate := 0,
    treatment_n := 5, treatment_successes := 2, treatment_rate := 2/5,
    absolute_lift := 2/5, relative_lift_pct := 0 }

/-- A metric report with two nonempty groups and no successes at all,
the boundary on which the pooled standard error vanishes. -/
def degenerate_report : MetricReport :=
  { metric_name := "CVR", control_n := 1, control_successes := 0, control_rate := 0,
    treatment_n := 1, treatment_successes := 0, treatment_rate := 0,
    absolute_lift := 0, relative_lift_pct := 0 }

/-- A matched-groups metric report: 5000 units and 350 successes in
each arm (the worked example of the spec). -/
def matched_report : MetricReport :=
  { metric_name := "CVR", control_n := 5000, control_successes := 350, control_rate := 7/100,
    treatment_n := 5000, treatment_successes := 350, treatment_rate := 7/100,
    absolute_lift := 0, relative_lift_pct := 0 }

/-- A 10000-row frame split 9000 control / 1000 treatment. -/
def srm_fail_df : DFrame :=
  { nrows := 10000,
    cols := [("variant",
      List.replicate 9000 (CellVal.str "control") ++
      List.replicate 1000 (CellVal.str "treatment"))] }

/-- A 10000-row frame split 5020 control / 4980 treatment. -/
def srm_pass_df : DFrame :=
  { nrows := 10000,
    cols := [("variant",
      List.replicate 5020 (CellVal.str "control") ++
      List.replicate 4980 (CellVal.str "treatment"))] }

/-- A frame with none of the required columns. -/
def bad_df : DFrame := { nrows := 5, cols := [] }

/-- A small two-row frame containing every column the checks access. -/
def good_df : DFrame :=
  { nrows := 2,
    cols := [("user_id", [CellVal.str "u1", CellVal.str "u2"]),
             ("variant", [CellVal.str "control", CellVal.str "treatment"]),
             ("eligible", [CellVal.boolean true, CellVal.boolean true]),
             ("clicked", [CellVal.boolean true, CellVal.boolean false]),
             ("converted", [CellVal.boolean false, CellVal.boolean false])]}

/-- A concrete stand-in for the inverse normal quantile carrying the
real quantile values (rounded) at the two probabilities the C9
counterexample probes: ppf(0.975) = 1.96 and ppf(0.01) = -2.33
(scipy gives 1.959964 and -2.326348).  Only their negative sum
matters. -/
noncomputable def probe_ppf : ℝ → ℝ :=
  fun x => if x < 1/2 then -233/100 else 196/100

/-! Helper lemmas shared by several claims. -/

/-- A guarded success rate lies in the unit interval. -/
theorem rate_bounds (s n : ℕ) (h : s ≤ n) :
    0 ≤ (if 0 < n then (s : ℚ) / (n : ℚ) else 0) ∧
      (if 0 < n then (s : ℚ) / (n : ℚ) else 0) ≤ 1 := by
  split
  · rename_i hn
    refine ⟨by positivity, ?_⟩
    rw [div_le_one (by exact_mod_cast hn)]
    exact_mod_cast h
  · exact ⟨le_refl 0, zero_le_one⟩

/-- With two nonempty groups and no successes the pooled proportion is
zero, the pooled standard error is zero, and the z-test returns a NaN
p-value. -/
theorem z_test_zero_successes (Phi : ℝ → ℝ) (n1 n2 : ℕ)
    (h1 : n1 ≠ 0) (h2 : n2 ≠ 0) :
    proportion_z_test Phi 0 n1 0 n2 = some none := by
  unfold proportion_z_test
  rw [if_neg (by simp [h1, h2])]
  norm_num

/-- C2. Metric aggregation is total: each rate is successes over size
for a nonempty group and 0 for an empty one, both rates lie in the unit
interval, the absolute lift is the rate difference, and the relative
lift is the guarded percentage. -/
theorem compute_binary_metric_total (name : String) (df : List Row)
    (outcome : Row → Bool) :
    (0 ≤ (compute_binary_metric name df outcome).control_rate ∧
      (compute_binary_metric name df outcome).control_rate ≤ 1) ∧
    (0 ≤ (compute_binary_metric name df outcome).treatment_rate ∧
      (compute_binary_metric name df outcome).treatment_rate ≤ 1) ∧
    (0 < (compute_binary_metric name df outcome).control_n →
      (compute_binary_metric name df outcome).control_rate =
        ((compute_binary_metric name df outcome).control_successes : ℚ) /
          ((compute_binary_metric name df outcome).control_n : ℚ)) ∧
    ((compute_binary_metric name df outcome).control_n = 0 →
      (compute_binary_metric name df outcome).control_rate = 0) ∧
    (0 < (compute_binary_metric name df outcome).treatment_n →
      (compute_binary_metric name df outcome).treatment_rate =
        ((compute_binary_metric name df outcome).treatment_successes : ℚ) /
          ((compute_binary_metric name df outcome).treatment_n : ℚ)) ∧
    ((compute_binary_metric name df outcome).treatment_n = 0 →
      (compute_binary_metric name df outcome).treatment_rate = 0) ∧
    (compute_binary_metric name df outcome).absolute_lift =
      (compute_binary_metric name df outcome).treatment_rate -
        (compute_binary_metric name df outcome).control_rate ∧
    (0 < (compute_binary_metric name df outcome).control_rate →
      (compute_binary_metric name df outcome).relative_lift_pct =
        (compute_binary_metric name df outcome).absolute_lift /
          (compute_binary_metric name df outcome).control_rate * 100) ∧
    ((compute_binary_metric name df outcome).control_rate = 0 →
      (compute_binary_metric name df outcome).relative_lift_pct = 0) := by
  dsimp only [compute_binary_metric]
  refine ⟨rate_bounds _ _ (List.length_filter_le _ _),
    rate_bounds _ _ (List.length_filter_le _ _),
    fun h => if_pos h, fun h => ?_, fun h => if_pos h, fun h => ?_, rfl,
    fun h => if_pos h, fun h => ?_⟩
  · rw [if_neg]
    omega
  · rw [if_neg]
    omega
  · rw [if_neg]
    rw [h]
    exact lt_irrefl 0

/-- C4. A zero-sized group makes the confidence-interval computation
divide by zero, so analyze_metric raises instead of returning a
report. -/
theorem analyze_metric_zero_group_fails (Phi ppf : ℝ → ℝ) (cl : ℝ)
    (m : MetricReport) (h : m.control_n = 0 ∨ m.treatment_n = 0) :
    analyze_metric Phi ppf cl m = none := by
  simp only [analyze_metric, proportion_diff_ci]
  rw [if_pos h]

/-- Witness for C4, at a report whose control group is empty. -/
theorem analyze_metric_zero_group_fails_witness :
    analyze_metric (fun _ => 0) (fun _ => 0) (19/20) zeroReport = none :=
  analyze_metric_zero_group_fails _ _ _ _ (Or.inl rfl)

/-- C5 failing input: with one unit and no successes in each group the
p-value is NaN, not a number in the unit interval. -/
theorem p_value_nan_at_zero_successes (Phi : ℝ → ℝ) :
    proportion_z_test Phi 0 1 0 1 = some none :=
  z_test_zero_successes Phi 1 1 one_ne_zero one_ne_zero

/-- C8 failing input: a baseline rate of 0 is outside the open unit
interval, yet compute_mde silently returns the number 0 instead of
failing with an invalid-argument condition. -/
theorem compute_mde_no_validation (ppf : ℝ → ℝ) (alpha : ℝ) :
    compute_mde ppf alpha 0 100 (4/5) = some (some 0) := by
  unfold compute_mde
  rw [if_neg (by norm_num), if_neg (by norm_num)]
  norm_num

/-- C9 (amended). For a baseline rate in the open unit interval and a
positive sum of the two normal quantiles — the regime of the real
quantile at the configured alpha = 0.05 for every power above about
0.025, in particular 0.8 — the minimum detectable effect is strictly
decreasing in the per-variant sample size. -/
theorem compute_mde_strict_antitone (ppf : ℝ → ℝ) (alpha p power : ℝ)
    (n m : ℤ) (hp0 : 0 < p) (hp1 : p < 1)
    (hz : 0 < ppf (1 - alpha / 2) + ppf power)
    (hn : 0 < n) (hnm : n < m) :
    ∃ a b, compute_mde ppf alpha p n power = some (some a) ∧
      compute_mde ppf alpha p m power = some (some b) ∧ b < a := by
  have hm : 0 < m := lt_trans hn hnm
  have hnum : (0 : ℝ) < 2 * p * (1 - p) := by
    have := sub_pos.mpr hp1
    positivity
  have hnR : (0 : ℝ) < (n : ℝ) := by exact_mod_cast hn
  have hmR : (0 : ℝ) < (m : ℝ) := by exact_mod_cast hm
  have hradn : (0 : ℝ) < 2 * p * (1 - p) / (n : ℝ) := div_pos hnum hnR
  have hradm : (0 : ℝ) < 2 * p * (1 - p) / (m : ℝ) := div_pos hnum hmR
  refine ⟨(ppf (1 - alpha / 2) + ppf power) * Real.sqrt (2 * p * (1 - p) / (n : ℝ)),
    (ppf (1 - alpha / 2) + ppf power) * Real.sqrt (2 * p * (1 - p) / (m : ℝ)),
    ?_, ?_, ?_⟩
  · unfold compute_mde
    rw [if_neg hn.ne', if_neg (not_lt.mpr hradn.le)]
  · unfold compute_mde
    rw [if_neg hm.ne', if_neg (not_lt.mpr hradm.le)]
  · have hlt : 2 * p * (1 - p) / (m : ℝ) < 2 * p * (1 - p) / (n : ℝ) :=
      div_lt_div_of_pos_left hnum hnR (by exact_mod_cast hnm)
    exact mul_lt_mul_of_pos_left (Real.sqrt_lt_sqrt hradm.le hlt) hz

/-- Witness for C9 at the documented instance: a 3.5 percent baseline,
80 percent power, and sample sizes 25000 versus 100000 (the abstract
normal quantile instantiated by a constant function). -/
theorem compute_mde_strict_antitone_witness :
    ∃ a b, compute_mde (fun _ => 1) (1/20) (7/200) 25000 (4/5) = some (some a) ∧
      compute_mde (fun _ => 1) (1/20) (7/200) 100000 (4/5) = some (some b) ∧ b < a :=
  compute_mde_strict_antitone (fun _ => 1) (1/20) (7/200) (4/5) 25000 100000
    (by norm_num) (by norm_num) (by norm_num) (by norm_num) (by norm_num)

/-- C9 counterexample: at power 0.01, inside the open interval (0,1)
the original claim ranges over, the real normal quantiles at the
configured alpha = 0.05 sum to 1.96 - 2.33 < 0, so the computed MDE is
negative and strictly increases from n = 25000 to n = 100000 — the
opposite of strictly decreasing. -/
theorem compute_mde_increases_at_small_power :
    ∃ a b, compute_mde probe_ppf (1/20) (7/200) 25000 (1/100) = some (some a) ∧
      compute_mde probe_ppf (1/20) (7/200) 100000 (1/100) = some (some b) ∧
      a < b := by
  refine ⟨(probe_ppf (1 - (1/20 : ℝ) / 2) + probe_ppf (1/100)) *
      Real.sqrt (2 * (7/200 : ℝ) * (1 - 7/200) / ((25000 : ℤ) : ℝ)),
    (probe_ppf (1 - (1/20 : ℝ) / 2) + probe_ppf (1/100)) *
      Real.sqrt (2 * (7/200 : ℝ) * (1 - 7/200) / ((100000 : ℤ) : ℝ)),
    ?_, ?_, ?_⟩
  · unfold compute_mde
    rw [if_neg (by norm_num), if_neg (by norm_num)]
  · unfold compute_mde
    rw [if_neg (by norm_num), if_neg (by norm_num)]
  · have h1 : probe_ppf (1 - (1/20 : ℝ) / 2) = 196/100 := by
      unfold probe_ppf
      rw [if_neg (by norm_num)]
    have h2 : probe_ppf ((1 : ℝ)/100) = -233/100 := by
      unfold probe_ppf
      rw [if_pos (by norm_num)]
    have hsq : Real.sqrt (2 * (7/200 : ℝ) * (1 - 7/200) / ((100000 : ℤ) : ℝ)) <
        Real.sqrt (2 * (7/200 : ℝ) * (1 - 7/200) / ((25000 : ℤ) : ℝ)) := by
      apply Real.sqrt_lt_sqrt (by positivity)
      rw [div_lt_div_iff₀ (by norm_num) (by norm_num)]
      norm_num
    rw [h1, h2]
    exact mul_lt_mul_of_neg_left hsq (by norm_num)

/-- C1 counterexample input: on the no-successes boundary the pooled
standard error is zero, so the report that analyze_metric returns
carries a NaN p-value instead of the claimed z-test value. -/
theorem analyze_metric_p_value_nan :
    (analyze_metric (fun _ => 0) (fun _ => 0) (19/20) degenerate_report).map
      (fun r => r.p_value) = some none := by
  have hzt : proportion_z_test (fun _ => (0:ℝ)) 0 1 0 1 = some none :=
    z_test_zero_successes _ 1 1 one_ne_zero one_ne_zero
  have hci : proportion_diff_ci (fun _ => (0:ℝ)) (1 - 19/20)
      ((0 : ℚ) : ℝ) 1 ((0 : ℚ) : ℝ) 1 =
      some (((0:ℚ):ℝ) - ((0:ℚ):ℝ) - (fun _ => (0:ℝ)) (1 - (1 - 19/20) / 2) *
          Real.sqrt (((0:ℚ):ℝ) * (1 - ((0:ℚ):ℝ)) / ((1:ℕ) : ℝ) +
            ((0:ℚ):ℝ) * (1 - ((0:ℚ):ℝ)) / ((1:ℕ) : ℝ)),
        ((0:ℚ):ℝ) - ((0:ℚ):ℝ) + (fun _ => (0:ℝ)) (1 - (1 - 19/20) / 2) *
          Real.sqrt (((0:ℚ):ℝ) * (1 - ((0:ℚ):ℝ)) / ((1:ℕ) : ℝ) +
            ((0:ℚ):ℝ) * (1 - ((0:ℚ):ℝ)) / ((1:ℕ) : ℝ))) := by
    unfold proportion_diff_ci
    rw [if_neg (by norm_num), if_neg (by norm_num)]
  simp only [analyze_metric, degenerate_report, hci, hzt]
  rfl

/-- C1 (amended). For a metric report with nonempty groups, rates in
the unit interval and a success total strictly between 0 and the total
sample size, analyze_metric returns a report whose interval is
diff plus or minus ppf(1 − alpha/2) times the unpooled standard error,
whose p-value is the pooled two-sided z-test value, and whose
significance flag states p-value < alpha; the interval uses the
unpooled and the test the pooled variance. -/
theorem analyze_metric_formulas (Phi ppf : ℝ → ℝ) (cl : ℝ) (m : MetricReport)
    (hn1 : 0 < m.control_n) (hn2 : 0 < m.treatment_n)
    (hp1l : 0 ≤ m.control_rate) (hp1u : m.control_rate ≤ 1)
    (hp2l : 0 ≤ m.treatment_rate) (hp2u : m.treatment_rate ≤ 1)
    (hx0 : 0 < m.control_successes + m.treatment_successes)
    (hxn : m.control_successes + m.treatment_successes < m.control_n + m.treatment_n) :
    ∃ r, analyze_metric Phi ppf cl m = some r ∧
      r.ci_lower = ((m.treatment_rate : ℝ) - (m.control_rate : ℝ)) -
        ppf (1 - (1 - cl) / 2) *
          spec_se (m.control_rate : ℝ) m.control_n (m.treatment_rate : ℝ) m.treatment_n ∧
      r.ci_upper = ((m.treatment_rate : ℝ) - (m.control_rate : ℝ)) +
        ppf (1 - (1 - cl) / 2) *
          spec_se (m.control_rate : ℝ) m.control_n (m.treatment_rate : ℝ) m.treatment_n ∧
      r.p_value = some (spec_p_value Phi m.control_successes m.control_n
        m.treatment_successes m.treatment_n) ∧
      (r.statistically_significant ↔
        spec_p_value Phi m.control_successes m.control_n
          m.treatment_successes m.treatment_n < 1 - cl) := by
  have hN : ¬(m.control_n = 0 ∨ m.treatment_n = 0) := by omega
  have h1R : (0 : ℝ) < (m.control_n : ℝ) := by exact_mod_cast hn1
  have h2R : (0 : ℝ) < (m.treatment_n : ℝ) := by exact_mod_cast hn2
  have hrad : ¬((m.control_rate : ℝ) * (1 - (m.control_rate : ℝ)) / (m.control_n : ℝ) +
      (m.treatment_rate : ℝ) * (1 - (m.treatment_rate : ℝ)) / (m.treatment_n : ℝ) < 0) := by
    have t1 : (0 : ℝ) ≤ (m.control_rate : ℝ) * (1 - (m.control_rate : ℝ)) :=
      mul_nonneg (by exact_mod_cast hp1l)
        (sub_nonneg.mpr (by exact_mod_cast hp1u))
    have t2 : (0 : ℝ) ≤ (m.treatment_rate : ℝ) * (1 - (m.treatment_rate : ℝ)) :=
      mul_nonneg (by exact_mod_cast hp2l)
        (sub_nonneg.mpr (by exact_mod_cast hp2u))
    exact not_lt.mpr (add_nonneg (div_nonneg t1 h1R.le) (div_nonneg t2 h2R.le))
  have hci : proportion_diff_ci ppf (1 - cl) (m.control_rate : ℝ) m.control_n
      (m.treatment_rate : ℝ) m.treatment_n =
      some (((m.treatment_rate : ℝ) - (m.control_rate : ℝ)) -
          ppf (1 - (1 - cl) / 2) *
            spec_se (m.control_rate : ℝ) m.control_n (m.treatment_rate : ℝ) m.treatment_n,
        ((m.treatment_rate : ℝ) - (m.control_rate : ℝ)) +
          ppf (1 - (1 - cl) / 2) *
            spec_se (m.control_rate : ℝ) m.control_n (m.treatment_rate : ℝ) m.treatment_n) := by
    unfold proportion_diff_ci spec_se
    rw [if_neg hN, if_neg hrad]
  have hXpos : (0 : ℝ) < (m.control_successes : ℝ) + (m.treatment_successes : ℝ) := by
    exact_mod_cast hx0
  have hNsum : (0 : ℝ) < (m.control_n : ℝ) + (m.treatment_n : ℝ) := by positivity
  have hpp : (0 : ℝ) <
      ((m.control_successes : ℝ) + (m.treatment_successes : ℝ)) /
        ((m.control_n : ℝ) + (m.treatment_n : ℝ)) := div_pos hXpos hNsum
  have hpp1 : ((m.control_successes : ℝ) + (m.treatment_successes : ℝ)) /
      ((m.control_n : ℝ) + (m.treatment_n : ℝ)) < 1 := by
    rw [div_lt_one hNsum]
    exact_mod_cast hxn
  have hsen : (0 : ℝ) <
      Real.sqrt (((m.control_successes : ℝ) + (m.treatment_successes : ℝ)) /
        ((m.control_n : ℝ) + (m.treatment_n : ℝ)) *
        (1 - ((m.control_successes : ℝ) + (m.treatment_successes : ℝ)) /
          ((m.control_n : ℝ) + (m.treatment_n : ℝ))) *
        (1 / (m.control_n : ℝ) + 1 / (m.treatment_n : ℝ))) := by
    apply Real.sqrt_pos.mpr
    have hinv : (0 : ℝ) < 1 / (m.control_n : ℝ) + 1 / (m.treatment_n : ℝ) := by positivity
    exact mul_pos (mul_pos hpp (sub_pos.mpr hpp1)) hinv
  have hzt : proportion_z_test Phi m.control_successes m.control_n
      m.treatment_successes m.treatment_n =
      some (some (spec_p_value Phi m.control_successes m.control_n
        m.treatment_successes m.treatment_n)) := by
    unfold proportion_z_test spec_p_value spec_se_null
    rw [if_neg hN, if_neg hsen.ne']
  simp only [analyze_metric, hci, hzt]
  exact ⟨_, rfl, rfl, rfl, rfl, Iff.rfl⟩

/-- Witness for C1 at the matched-groups report, with the normal CDF
and quantile instantiated by constant functions. -/
theorem analyze_metric_formulas_witness :
    ∃ r, analyze_metric (fun _ => 0) (fun _ => 0) (19/20) matched_report = some r ∧
      r.ci_lower = ((matched_report.treatment_rate : ℝ) - (matched_report.control_rate : ℝ)) -
        0 * spec_se (matched_report.control_rate : ℝ) matched_report.control_n
          (matched_report.treatment_rate : ℝ) matched_report.treatment_n ∧
      r.ci_upper = ((matched_report.treatment_rate : ℝ) - (matched_report.control_rate : ℝ)) +
        0 * spec_se (matched_report.control_rate : ℝ) matched_report.control_n
          (matched_report.treatment_rate : ℝ) matched_report.treatment_n ∧
      r.p_value = some (spec_p_value (fun _ => 0) matched_report.control_successes
        matched_report.control_n matched_report.treatment_successes
        matched_report.treatment_n) ∧
      (r.statistically_significant ↔
        spec_p_value (fun _ => 0) matched_report.control_successes matched_report.control_n
          matched_report.treatment_successes matched_report.treatment_n < 1 - 19/20) :=
  analyze_metric_formulas (fun _ => 0) (fun _ => 0) (19/20) matched_report
    (by decide) (by decide) (by norm_num [matched_report]) (by norm_num [matched_report])
    (by norm_num [matched_report]) (by norm_num [matched_report]) (by decide) (by decide)

/-- C3. On a nonempty frame with an allocation ratio strictly between
0 and 1, the SRM check produces an error-severity result that fails
exactly when the chi-square statistic over the two categories exceeds
the fixed critical value 10.83. -/
theorem check_srm_threshold (ratio : ℚ) (df : DFrame) (col : List CellVal)
    (hcol : df.getCol "variant" = some col)
    (hr0 : 0 < ratio) (hr1 : ratio < 1) (hN : 0 < df.nrows) :
    ∃ res, check_sample_ratio_mismatch ratio df = some res ∧
      res.severity = "error" ∧
      (res.passed = false ↔ critical_value <
        chi_square_stat ratio df.nrows (col.count (CellVal.str "control"))
          (col.count (CellVal.str "treatment"))) ∧
      (res.passed = true ↔ ¬ critical_value <
        chi_square_stat ratio df.nrows (col.count (CellVal.str "control"))
          (col.count (CellVal.str "treatment"))) := by
  have hNQ : ((df.nrows : ℚ)) ≠ 0 := by
    exact_mod_cast hN.ne'
  have he1 : (df.nrows : ℚ) * ratio ≠ 0 := mul_ne_zero hNQ hr0.ne'
  have he2 : (df.nrows : ℚ) * (1 - ratio) ≠ 0 :=
    mul_ne_zero hNQ (sub_pos.mpr hr1).ne'
  unfold check_sample_ratio_mismatch
  rw [hcol]
  dsimp only
  rw [if_neg (by push_neg; exact ⟨he1, he2⟩)]
  unfold chi_square_stat
  split
  · rename_i hchi
    exact ⟨_, rfl, rfl, by simp [hchi], by simp [hchi]⟩
  · rename_i hchi
    exact ⟨_, rfl, rfl, by simp [hchi], by simp [hchi]⟩

/-- Witness for C3: a 9000/1000 split of 10000 rows against a 50/50
expectation fails the check and a 5020/4980 split passes it. -/
theorem check_srm_threshold_witness :
    (∃ res, check_sample_ratio_mismatch (1/2) srm_fail_df = some res ∧
      res.severity = "error" ∧ res.passed = false) ∧
    (∃ res, check_sample_ratio_mismatch (1/2) srm_pass_df = some res ∧
      res.severity = "error" ∧ res.passed = true) := by
  constructor
  · obtain ⟨res, h1, h2, h3, _⟩ := check_srm_threshold (1/2) srm_fail_df
      (List.replicate 9000 (CellVal.str "control") ++
        List.replicate 1000 (CellVal.str "treatment"))
      rfl (by norm_num) (by norm_num) (by norm_num [srm_fail_df])
    refine ⟨res, h1, h2, h3.mpr ?_⟩
    rw [List.count_append, List.count_replicate, List.count_replicate,
      List.count_append, List.count_replicate, List.count_replicate,
      if_pos (by decide), if_neg (by decide), if_neg (by decide), if_pos (by decide)]
    norm_num [chi_square_stat, critical_value, srm_fail_df]
  · obtain ⟨res, h1, h2, _, h4⟩ := check_srm_threshold (1/2) srm_pass_df
      (List.replicate 5020 (CellVal.str "control") ++
        List.replicate 4980 (CellVal.str "treatment"))
      rfl (by norm_num) (by norm_num) (by norm_num [srm_pass_df])
    refine ⟨res, h1, h2, h4.mpr ?_⟩
    rw [List.count_append, List.count_replicate, List.count_replicate,
      List.count_append, List.count_replicate, List.count_replicate,
      if_pos (by decide), if_neg (by decide), if_neg (by decide), if_pos (by decide)]
    norm_num [chi_square_stat, critical_value, srm_pass_df]

/-- C6 counterexample input: on a frame with no columns the null check
raises KeyError, so the run aborts and no six-result report exists. -/
theorem validate_missing_columns_raises : validate (1/2) bad_df = none := by
  rfl

/-- C6 (amended). On a frame that has the five required non-null
columns and at least one row, with an allocation ratio strictly between
0 and 1, the validation run executes all six checks, never raises, and
returns exactly their six results in order. -/
theorem validate_runs_all_six_checks (ratio : ℚ) (df : DFrame)
    (hr0 : 0 < ratio) (hr1 : ratio < 1) (hN : 0 < df.nrows)
    (hcols : required_non_null.all (fun c => (df.getCol c).isSome) = true) :
    ∃ r2 r3 r4 r5 r6,
      check_nulls df = some r2 ∧
      check_variants df = some r3 ∧
      check_sample_ratio_mismatch ratio df = some r4 ∧
      check_contamination df = some r5 ∧
      check_eligibility df = some r6 ∧
      validate ratio df = some ⟨[check_schema df, r2, r3, r4, r5, r6]⟩ := by
  have hall := hcols
  simp only [required_non_null, List.all_cons, List.all_nil, Bool.and_eq_true,
    and_true] at hall
  obtain ⟨hu, hv, he, _, _⟩ := hall
  obtain ⟨ucol, hucol⟩ := Option.isSome_iff_exists.mp hu
  obtain ⟨vcol, hvcol⟩ := Option.isSome_iff_exists.mp hv
  obtain ⟨ecol, hecol⟩ := Option.isSome_iff_exists.mp he
  have hNQ : ((df.nrows : ℚ)) ≠ 0 := by exact_mod_cast hN.ne'
  have he1 : (df.nrows : ℚ) * ratio ≠ 0 := mul_ne_zero hNQ hr0.ne'
  have he2 : (df.nrows : ℚ) * (1 - ratio) ≠ 0 :=
    mul_ne_zero hNQ (sub_pos.mpr hr1).ne'
  have h2 : ∃ r, check_nulls df = some r := by
    unfold check_nulls
    rw [if_pos hcols]
    exact ⟨_, rfl⟩
  have h3 : ∃ r, check_variants df = some r := by
    unfold check_variants
    rw [hvcol]
    exact ⟨_, rfl⟩
  have h4 : ∃ r, check_sample_ratio_mismatch ratio df = some r := by
    unfold check_sample_ratio_mismatch
    rw [hvcol]
    dsimp only
    rw [if_neg (by push_neg; exact ⟨he1, he2⟩)]
    exact ⟨_, rfl⟩
  have h5 : ∃ r, check_contamination df = some r := by
    unfold check_contamination
    rw [hucol, hvcol]
    exact ⟨_, rfl⟩
  have h6 : ∃ r, check_eligibility df = some r := by
    unfold check_eligibility
    rw [hecol]
    exact ⟨_, rfl⟩
  obtain ⟨r2, h2⟩ := h2
  obtain ⟨r3, h3⟩ := h3
  obtain ⟨r4, h4⟩ := h4
  obtain ⟨r5, h5⟩ := h5
  obtain ⟨r6, h6⟩ := h6
  refine ⟨r2, r3, r4, r5, r6, h2, h3, h4, h5, h6, ?_⟩
  unfold validate
  rw [h2, h3, h4, h5, h6]

/-- Witness for C6 on a concrete two-row frame holding exactly the five
required non-null columns. -/
theorem validate_runs_all_six_checks_witness :
    ∃ r2 r3 r4 r5 r6,
      check_nulls good_df = some r2 ∧
      check_variants good_df = some r3 ∧
      check_sample_ratio_mismatch (1/2) good_df = some r4 ∧
      check_contamination good_df = some r5 ∧
      check_eligibility good_df = some r6 ∧
      validate (1/2) good_df = some ⟨[check_schema good_df, r2, r3, r4, r5, r6]⟩ :=
  validate_runs_all_six_checks (1/2) good_df (by norm_num) (by norm_num)
    (by decide) (by decide)

/-- C7. The overall flag of a validation report is the conjunction of
the passed flags of its error-severity results alone: it is true
exactly when every error-severity result passed, appending a
warning-severity result never changes it, and a failing eligibility
result always carries warning severity. -/
theorem overall_passed_error_only :
    (∀ rep : ValidationReport, rep.passed = true ↔
      ∀ r ∈ rep.results, r.severity = "error" → r.passed = true) ∧
    (∀ (results : List ValidationResult) (w : ValidationResult),
      w.severity = "warning" →
      ValidationReport.passed ⟨results ++ [w]⟩ = ValidationReport.passed ⟨results⟩) ∧
    (∀ (df : DFrame) (res : ValidationResult), check_eligibility df = some res →
      res.passed = false → res.severity = "warning") := by
  refine ⟨fun rep => ?_, fun results w hw => ?_, fun df res h hp => ?_⟩
  · simp only [ValidationReport.passed, List.all_eq_true, List.mem_filter,
      and_imp, beq_iff_eq]
  · have hne : ((("warning" : String) == "error")) = false := by decide
    simp [ValidationReport.passed, List.filter_append, hw, hne]
  · revert h
    unfold check_eligibility
    cases hg : df.getCol "eligible" with
    | none => intro h; cases h
    | some col =>
      intro h
      rw [Option.some_inj] at h
      by_cases hc : df.nrows ≠ 0 ∧
          ((col.count (CellVal.boolean true) : ℚ)) / (df.nrows : ℚ) * 100 < 80
      · rw [if_pos hc] at h
        rw [← h]
      · rw [if_neg hc] at h
        rw [← h] at hp
        cases hp

end AB
